import Mathlib

/-!
Verification of the pro-forma calculation model of `src/proforma.py`.

The program is a straight-line sequence of arithmetic derivations over a
flat record of scalar inputs.  Python float arithmetic is embedded as
exact rational arithmetic over `ℚ`; the single fractional power used by
the IRR formula is embedded as the real power `Real.rpow`.  The fallible
IRR computation (`calc_irr` returns `None` in the source) is embedded as
an `Option ℝ`.
-/

/-- The 14 scalar input parameters of the engine, one field per
sidebar input of `src/proforma.py`, in source order. -/
structure Inputs where
  buildable_sf : ℚ
  units : ℤ
  land_cost : ℚ
  hard_cost_per_sf : ℚ
  soft_cost_pct : ℚ
  contingency_pct : ℚ
  loan_to_cost : ℚ
  interest_rate : ℚ
  rent_per_sf_year : ℚ
  stabilized_vacancy_pct : ℚ
  op_ex_pct : ℚ
  exit_cap_rate : ℚ
  sale_cost_pct : ℚ
  hold_period_years : ℤ
deriving DecidableEq

/-- Default input values (the `value=` arguments of the sidebar widgets). -/
def defaultInputs : Inputs where
  buildable_sf := 2000
  units := 10
  land_cost := 500000
  hard_cost_per_sf := 350
  soft_cost_pct := 15
  contingency_pct := 7.5
  loan_to_cost := 65
  interest_rate := 7
  rent_per_sf_year := 45
  stabilized_vacancy_pct := 5
  op_ex_pct := 35
  exit_cap_rate := 5
  sale_cost_pct := 1
  hold_period_years := 4

/-- The default inputs with a zero exit cap rate (the clamped case). -/
def zeroCapInputs : Inputs := { defaultInputs with exit_cap_rate := 0 }

/-- The default inputs with all cost inputs zero, so that
`total_project_cost` and `equity_required` both vanish. -/
def zeroCostInputs : Inputs :=
  { defaultInputs with land_cost := 0, hard_cost_per_sf := 0 }

/-- `hard_costs = buildable_sf * hard_cost_per_sf` -/
def hard_costs (i : Inputs) : ℚ := i.buildable_sf * i.hard_cost_per_sf

/-- `soft_costs = hard_costs * (soft_cost_pct / 100.0)` -/
def soft_costs (i : Inputs) : ℚ := hard_costs i * (i.soft_cost_pct / 100)

/-- `contingency = (hard_costs + soft_costs) * (contingency_pct / 100.0)` -/
def contingency (i : Inputs) : ℚ :=
  (hard_costs i + soft_costs i) * (i.contingency_pct / 100)

/-- `total_project_cost = land_cost + hard_costs + soft_costs + contingency` -/
def total_project_cost (i : Inputs) : ℚ :=
  i.land_cost + hard_costs i + soft_costs i + contingency i

/-- `loan_amount = total_project_cost * (loan_to_cost / 100.0)` -/
def loan_amount (i : Inputs) : ℚ :=
  total_project_cost i * (i.loan_to_cost / 100)

/-- `equity_required = total_project_cost - loan_amount` -/
def equity_required (i : Inputs) : ℚ :=
  total_project_cost i - loan_amount i

/-- `pgi = buildable_sf * rent_per_sf_year` (Potential Gross Income) -/
def pgi (i : Inputs) : ℚ := i.buildable_sf * i.rent_per_sf_year

/-- `vacancy_loss = pgi * (stabilized_vacancy_pct / 100.0)` -/
def vacancy_loss (i : Inputs) : ℚ := pgi i * (i.stabilized_vacancy_pct / 100)

/-- `egi = pgi - vacancy_loss` (Effective Gross Income) -/
def egi (i : Inputs) : ℚ := pgi i - vacancy_loss i

/-- `op_ex = egi * (op_ex_pct / 100.0)` -/
def op_ex (i : Inputs) : ℚ := egi i * (i.op_ex_pct / 100)

/-- `noi = egi - op_ex` -/
def noi (i : Inputs) : ℚ := egi i - op_ex i

/-- `cap_rate_decimal = exit_cap_rate / 100.0 if exit_cap_rate > 0 else 0.0001` -/
def cap_rate_decimal (i : Inputs) : ℚ :=
  if 0 < i.exit_cap_rate then i.exit_cap_rate / 100 else 0.0001

/-- `stabilized_value = noi / cap_rate_decimal` -/
def stabilized_value (i : Inputs) : ℚ := noi i / cap_rate_decimal i

/-- `sale_costs = stabilized_value * (sale_cost_pct / 100.0)` -/
def sale_costs (i : Inputs) : ℚ := stabilized_value i * (i.sale_cost_pct / 100)

/-- `net_sale_before_debt = stabilized_value - sale_costs` -/
def net_sale_before_debt (i : Inputs) : ℚ :=
  stabilized_value i - sale_costs i

/-- `developer_profit_unlevered = net_sale_before_debt - total_project_cost` -/
def developer_profit_unlevered (i : Inputs) : ℚ :=
  net_sale_before_debt i - total_project_cost i

/-- `dev_margin_on_cost = developer_profit_unlevered / total_project_cost
if total_project_cost > 0 else 0` -/
def dev_margin_on_cost (i : Inputs) : ℚ :=
  if 0 < total_project_cost i then
    developer_profit_unlevered i / total_project_cost i
  else 0

/-- `equity_exit_cash = net_sale_before_debt - loan_amount` -/
def equity_exit_cash (i : Inputs) : ℚ :=
  net_sale_before_debt i - loan_amount i

/-- `equity_profit = equity_exit_cash - equity_required` -/
def equity_profit (i : Inputs) : ℚ :=
  equity_exit_cash i - equity_required i

/-- `equity_multiple = (equity_exit_cash / equity_required)
if equity_required > 0 else 0` -/
def equity_multiple (i : Inputs) : ℚ :=
  if 0 < equity_required i then equity_exit_cash i / equity_required i else 0

/-- `calc_irr(equity_out, equity_in, years)`: returns `None` when
`equity_in <= 0 or equity_out <= 0 or years <= 0`, and otherwise
`(equity_out / equity_in) ** (1.0 / years) - 1.0`. -/
noncomputable def calc_irr (equity_out equity_in : ℚ) (years : ℤ) : Option ℝ :=
  if equity_in ≤ 0 ∨ equity_out ≤ 0 ∨ years ≤ 0 then none
  else some (((equity_out / equity_in : ℚ) : ℝ) ^ ((1 : ℝ) / (years : ℝ)) - 1)

/-- `irr = calc_irr(equity_exit_cash, equity_required, hold_period_years)` -/
noncomputable def irr (i : Inputs) : Option ℝ :=
  calc_irr (equity_exit_cash i) (equity_required i) i.hold_period_years

/-- All derived outputs of the engine, bundled as one record. -/
structure Outputs where
  hard_costs : ℚ
  soft_costs : ℚ
  contingency : ℚ
  total_project_cost : ℚ
  loan_amount : ℚ
  equity_required : ℚ
  pgi : ℚ
  vacancy_loss : ℚ
  egi : ℚ
  op_ex : ℚ
  noi : ℚ
  cap_rate_decimal : ℚ
  stabilized_value : ℚ
  sale_costs : ℚ
  net_sale_before_debt : ℚ
  developer_profit_unlevered : ℚ
  dev_margin_on_cost : ℚ
  equity_exit_cash : ℚ
  equity_profit : ℚ
  equity_multiple : ℚ
  irr : Option ℝ

/-- The whole engine as one pure function from inputs to outputs,
mirroring the "Core Calculations" block of `src/proforma.py`. -/
noncomputable def runEngine (i : Inputs) : Outputs where
  hard_costs := hard_costs i
  soft_costs := soft_costs i
  contingency := contingency i
  total_project_cost := total_project_cost i
  loan_amount := loan_amount i
  equity_required := equity_required i
  pgi := pgi i
  vacancy_loss := vacancy_loss i
  egi := egi i
  op_ex := op_ex i
  noi := noi i
  cap_rate_decimal := cap_rate_decimal i
  stabilized_value := stabilized_value i
  sale_costs := sale_costs i
  net_sale_before_debt := net_sale_before_debt i
  developer_profit_unlevered := developer_profit_unlevered i
  dev_margin_on_cost := dev_margin_on_cost i
  equity_exit_cash := equity_exit_cash i
  equity_profit := equity_profit i
  equity_multiple := equity_multiple i
  irr := irr i

/-- C2. For every input, the cost stack satisfies exactly:
`hard_costs = buildable_sf * hard_cost_per_sf`,
`soft_costs = hard_costs * (soft_cost_pct / 100)`,
`contingency = (hard_costs + soft_costs) * (contingency_pct / 100)`, and
`total_project_cost = land_cost + hard_costs + soft_costs + contingency`. -/
theorem cost_stack_spec (i : Inputs) :
    hard_costs i = i.buildable_sf * i.hard_cost_per_sf ∧
    soft_costs i = hard_costs i * (i.soft_cost_pct / 100) ∧
    contingency i = (hard_costs i + soft_costs i) * (i.contingency_pct / 100) ∧
    total_project_cost i
      = i.land_cost + hard_costs i + soft_costs i + contingency i :=
  ⟨rfl, rfl, rfl, rfl⟩

/-- C5. For every input, `equity_required + loan_amount = total_project_cost`,
with `loan_amount = total_project_cost * (loan_to_cost / 100)` and
`equity_required = total_project_cost - loan_amount`. -/
theorem capital_stack_decomposition (i : Inputs) :
    equity_required i + loan_amount i = total_project_cost i ∧
    loan_amount i = total_project_cost i * (i.loan_to_cost / 100) ∧
    equity_required i = total_project_cost i - loan_amount i := by
  refine ⟨?_, rfl, rfl⟩
  simp only [equity_required]
  ring

/-- C6. For every input, the stabilized income chain satisfies
`pgi = buildable_sf * rent_per_sf_year`,
`vacancy_loss = pgi * (stabilized_vacancy_pct / 100)`, `egi = pgi - vacancy_loss`,
`op_ex = egi * (op_ex_pct / 100)`, and `noi = egi - op_ex`. -/
theorem income_chain_spec (i : Inputs) :
    pgi i = i.buildable_sf * i.rent_per_sf_year ∧
    vacancy_loss i = pgi i * (i.stabilized_vacancy_pct / 100) ∧
    egi i = pgi i - vacancy_loss i ∧
    op_ex i = egi i * (i.op_ex_pct / 100) ∧
    noi i = egi i - op_ex i :=
  ⟨rfl, rfl, rfl, rfl, rfl⟩

/-- C10. For every input, `equity_profit` equals `developer_profit_unlevered`
exactly: the `loan_amount` term cancels, and both equal
`net_sale_before_debt - total_project_cost`. -/
theorem equity_profit_eq_unlevered_profit (i : Inputs) :
    equity_profit i = developer_profit_unlevered i ∧
    equity_profit i = net_sale_before_debt i - total_project_cost i := by
  constructor <;>
    · simp only [equity_profit, equity_exit_cash, equity_required,
        developer_profit_unlevered]
      ring

/-- C3. For every input with `exit_cap_rate <= 0`, `cap_rate_decimal` is
clamped to the floor `0.0001` and `stabilized_value = noi / 0.0001`; for
every input with `exit_cap_rate > 0`, `cap_rate_decimal = exit_cap_rate / 100`
and `stabilized_value = noi / cap_rate_decimal`. -/
theorem cap_rate_clamp_spec (i : Inputs) :
    (i.exit_cap_rate ≤ 0 →
      cap_rate_decimal i = 0.0001 ∧ stabilized_value i = noi i / 0.0001) ∧
    (0 < i.exit_cap_rate →
      cap_rate_decimal i = i.exit_cap_rate / 100 ∧
      stabilized_value i = noi i / cap_rate_decimal i) := by
  constructor
  · intro h
    have hc : cap_rate_decimal i = 0.0001 := if_neg (not_lt.mpr h)
    exact ⟨hc, by rw [stabilized_value, hc]⟩
  · intro h
    exact ⟨if_pos h, rfl⟩

/-- Witness for C3 at a concrete input with `exit_cap_rate = 0`. -/
theorem cap_rate_clamp_spec_witness :
    cap_rate_decimal zeroCapInputs = 0.0001 ∧
    stabilized_value zeroCapInputs = noi zeroCapInputs / 0.0001 :=
  (cap_rate_clamp_spec zeroCapInputs).1
    (by norm_num [zeroCapInputs, defaultInputs])

/-- C4. Under the spec input domain (nonnegative cost inputs), the division
guards substitute zero: if `total_project_cost = 0` then
`dev_margin_on_cost = 0`, otherwise it is the quotient; if
`equity_required = 0` then `equity_multiple = 0`, and for
`equity_required > 0` it is the quotient. -/
theorem division_guards_spec (i : Inputs)
    (hsf : 0 ≤ i.buildable_sf) (hhc : 0 ≤ i.hard_cost_per_sf)
    (hsc : 0 ≤ i.soft_cost_pct) (hcc : 0 ≤ i.contingency_pct)
    (hlc : 0 ≤ i.land_cost) :
    (total_project_cost i = 0 → dev_margin_on_cost i = 0) ∧
    (total_project_cost i ≠ 0 →
      dev_margin_on_cost i
        = developer_profit_unlevered i / total_project_cost i) ∧
    (equity_required i = 0 → equity_multiple i = 0) ∧
    (0 < equity_required i →
      equity_multiple i = equity_exit_cash i / equity_required i) := by
  have hhard : 0 ≤ hard_costs i := mul_nonneg hsf hhc
  have hsoft : 0 ≤ soft_costs i :=
    mul_nonneg hhard (div_nonneg hsc (by norm_num))
  have hcont : 0 ≤ contingency i :=
    mul_nonneg (add_nonneg hhard hsoft) (div_nonneg hcc (by norm_num))
  have htpc : 0 ≤ total_project_cost i :=
    add_nonneg (add_nonneg (add_nonneg hlc hhard) hsoft) hcont
  refine ⟨?_, ?_, ?_, ?_⟩
  · intro h0
    simp [dev_margin_on_cost, h0]
  · intro hne
    have hpos : 0 < total_project_cost i := lt_of_le_of_ne htpc (Ne.symm hne)
    simp only [dev_margin_on_cost]
    exact if_pos hpos
  · intro h0
    simp [equity_multiple, h0]
  · intro hpos
    simp only [equity_multiple]
    exact if_pos hpos

/-- Witness for C4 at a concrete input with all cost inputs zero, where
both `total_project_cost` and `equity_required` vanish. -/
theorem division_guards_spec_witness :
    dev_margin_on_cost zeroCostInputs = 0 ∧ equity_multiple zeroCostInputs = 0 :=
  ⟨(division_guards_spec zeroCostInputs
      (by norm_num [zeroCostInputs, defaultInputs])
      (by norm_num [zeroCostInputs, defaultInputs])
      (by norm_num [zeroCostInputs, defaultInputs])
      (by norm_num [zeroCostInputs, defaultInputs])
      (by norm_num [zeroCostInputs, defaultInputs])).1
      (by norm_num [total_project_cost, hard_costs, soft_costs, contingency,
        zeroCostInputs, defaultInputs]),
   (division_guards_spec zeroCostInputs
      (by norm_num [zeroCostInputs, defaultInputs])
      (by norm_num [zeroCostInputs, defaultInputs])
      (by norm_num [zeroCostInputs, defaultInputs])
      (by norm_num [zeroCostInputs, defaultInputs])
      (by norm_num [zeroCostInputs, defaultInputs])).2.2.1
      (by norm_num [equity_required, loan_amount, total_project_cost,
        hard_costs, soft_costs, contingency, zeroCostInputs, defaultInputs])⟩

/-- C1. For every input, the IRR result is `none` ("not applicable") iff
`equity_required <= 0` or `equity_exit_cash <= 0` or
`hold_period_years <= 0`; otherwise
`irr = (equity_exit_cash / equity_required) ^ (1 / hold_period_years) - 1`. -/
theorem calc_irr_spec (i : Inputs) :
    (irr i = none ↔
      equity_required i ≤ 0 ∨ equity_exit_cash i ≤ 0 ∨ i.hold_period_years ≤ 0) ∧
    (¬(equity_required i ≤ 0 ∨ equity_exit_cash i ≤ 0 ∨ i.hold_period_years ≤ 0) →
      irr i = some (((equity_exit_cash i / equity_required i : ℚ) : ℝ)
        ^ ((1 : ℝ) / (i.hold_period_years : ℝ)) - 1)) := by
  constructor
  · by_cases h : equity_required i ≤ 0 ∨ equity_exit_cash i ≤ 0 ∨
        i.hold_period_years ≤ 0
    · refine iff_of_true ?_ h
      simp only [irr, calc_irr]
      exact if_pos h
    · refine iff_of_false ?_ h
      simp only [irr, calc_irr, if_neg h]
      exact Option.some_ne_none _
  · intro h
    simp only [irr, calc_irr, if_neg h]

/-- Witness for C1 at the default inputs, where all three guard quantities
are positive and the formula branch applies. -/
theorem calc_irr_spec_witness :
    irr defaultInputs
      = some (((equity_exit_cash defaultInputs / equity_required defaultInputs : ℚ) : ℝ)
          ^ ((1 : ℝ) / (defaultInputs.hold_period_years : ℝ)) - 1) :=
  (calc_irr_spec defaultInputs).2 (by
    norm_num [equity_required, equity_exit_cash, net_sale_before_debt,
      stabilized_value, sale_costs, noi, egi, op_ex, pgi, vacancy_loss,
      cap_rate_decimal, loan_amount, total_project_cost, hard_costs,
      soft_costs, contingency, defaultInputs])

/-- C7. For inputs with `buildable_sf = 2000`, `hard_cost_per_sf = 350`,
`soft_cost_pct = 15`, `contingency_pct = 7.5`, `land_cost = 500000`, the
engine produces exactly `hard_costs = 700000`, `soft_costs = 105000`,
`contingency = 60375`, `total_project_cost = 1365375`; and with
`loan_to_cost = 65` additionally `loan_amount = 887493.75` and
`equity_required = 477881.25`. -/
theorem scenario_ab_values (i : Inputs)
    (h1 : i.buildable_sf = 2000) (h2 : i.hard_cost_per_sf = 350)
    (h3 : i.soft_cost_pct = 15) (h4 : i.contingency_pct = 7.5)
    (h5 : i.land_cost = 500000) (h6 : i.loan_to_cost = 65) :
    hard_costs i = 700000 ∧ soft_costs i = 105000 ∧ contingency i = 60375 ∧
    total_project_cost i = 1365375 ∧ loan_amount i = 887493.75 ∧
    equity_required i = 477881.25 := by
  simp only [hard_costs, soft_costs, contingency, total_project_cost,
    loan_amount, equity_required, h1, h2, h3, h4, h5, h6]
  norm_num

/-- Witness for C7 at the default inputs, whose scenario fields are
exactly those of Scenario A and B. -/
theorem scenario_ab_values_witness :
    hard_costs defaultInputs = 700000 ∧ soft_costs defaultInputs = 105000 ∧
    contingency defaultInputs = 60375 ∧
    total_project_cost defaultInputs = 1365375 ∧
    loan_amount defaultInputs = 887493.75 ∧
    equity_required defaultInputs = 477881.25 :=
  scenario_ab_values defaultInputs rfl rfl rfl rfl rfl rfl

/-- C8. Two inputs that agree on everything except `units` and
`interest_rate` yield identical values for every derived output: the two
display-only inputs are never used in the calculation model. -/
theorem display_inputs_noninterference
    (bsf lc hc sc cc ltc rpsf svp oxp ecr scp : ℚ) (hold : ℤ)
    (u1 u2 : ℤ) (ir1 ir2 : ℚ) :
    runEngine ⟨bsf, u1, lc, hc, sc, cc, ltc, ir1, rpsf, svp, oxp, ecr, scp, hold⟩
      = runEngine ⟨bsf, u2, lc, hc, sc, cc, ltc, ir2, rpsf, svp, oxp, ecr, scp, hold⟩ :=
  rfl

/-- C9. The engine is a pure function of its input record: two invocations
with identical input values produce identical values for every derived
output, with no dependence on prior invocations or other state. -/
theorem engine_deterministic (i j : Inputs) (h : i = j) :
    runEngine i = runEngine j :=
  congrArg runEngine h

/-- Witness for C9: two invocations at the default inputs agree. -/
theorem engine_deterministic_witness :
    runEngine defaultInputs = runEngine defaultInputs :=
  engine_deterministic defaultInputs defaultInputs rfl
